import Mathlib

/-!
Shallow embedding of the Virtual-CPU IE Simulator core
(`src/lib/simulation.ts`, `src/lib/types.ts`, `src/pages/api/avoid.ts`,
`src/hooks/useDualSimulation.ts`, `src/hooks/useCarSimulation.ts`).

JavaScript numbers are modelled as exact rationals (ℚ), lane indices and
Math.sign outputs as integers, and `Math.random()` calls as explicit
rational parameters in [0,1).  Statuses and actions are inductive types
mirroring the string unions of `types.ts`.
-/

namespace VSim

/-- Status union of `types.ts` (`SimStatus`). -/
inductive SimStatus where
  | idle
  | running
  | patmosTriggered
  | avoiding
  | completed
  | collision
deriving DecidableEq, Repr

/-- `types.ts` `Difficulty`. -/
inductive Difficulty where
  | easy
  | hard
deriving DecidableEq, Repr

/-- `types.ts` `CarState`. -/
structure CarState where
  x : ℚ
  y : ℚ
  speed : ℚ
  lane : ℤ
  steering : ℤ
  braking : Bool
deriving DecidableEq, Repr

/-- `types.ts` `Obstacle`. -/
structure Obstacle where
  x : ℚ
  y : ℚ
  lane : ℤ
  width : ℚ
  height : ℚ
deriving DecidableEq, Repr

/-- `types.ts` `SimulationConfig`. -/
structure SimulationConfig where
  roadLength : ℚ
  laneWidth : ℚ
  numLanes : ℤ
  detectionThreshold : ℚ
  initialSpeed : ℚ
  brakeDeceleration : ℚ
  laneChangeSpeed : ℚ
  numObstacles : ℤ
  difficulty : Difficulty
deriving DecidableEq, Repr

/-- Action union of `PatmosResponse.action`. -/
inductive PAction where
  | steer
  | brake
  | none
deriving DecidableEq, Repr

/-- `types.ts` `PatmosResponse`. -/
structure PatmosResponse where
  action : PAction
  target_lane : ℤ
  brake_force : ℚ
  cycles_used : ℚ
  deadline_cycles : ℚ
  deadline_met : Bool
  execution_path : String
  timestamp : ℚ
deriving DecidableEq, Repr

/-- `types.ts` `ProcessorTiming`. -/
structure ProcessorTiming where
  cycles : ℚ
  wcet : ℚ
  bcet : ℚ
  jitter : ℚ
  executionTimeMs : ℚ
deriving DecidableEq, Repr

/-- `types.ts` `TimingComparison`. -/
structure TimingComparison where
  patmos : ProcessorTiming
  normal : ProcessorTiming
  speedup : ℚ
  predictabilityGain : ℚ
deriving DecidableEq, Repr

/-- `types.ts` `SimulationState`. -/
structure SimulationState where
  car : CarState
  obstacles : List Obstacle
  status : SimStatus
  patmosResult : Option PatmosResponse
  patmosHistory : List PatmosResponse
  elapsedTime : ℚ
  triggerDistance : Option ℚ
  timingComparison : Option TimingComparison
deriving DecidableEq, Repr

/-- `types.ts` `DEFAULT_CONFIG`. -/
def DEFAULT_CONFIG : SimulationConfig :=
  { roadLength := 2000
    laneWidth := 120
    numLanes := 2
    detectionThreshold := 250
    initialSpeed := 120
    brakeDeceleration := 350
    laneChangeSpeed := 4
    numObstacles := 1
    difficulty := Difficulty.easy }

/-- JavaScript `Math.sign`, restricted to the -1/0/1 outputs used here. -/
def jsSign (q : ℚ) : ℤ :=
  if 0 < q then 1 else if q < 0 then -1 else 0

/-- `simulation.ts` `getLaneCenter`. -/
def getLaneCenter (lane : ℤ) (config : SimulationConfig) : ℚ :=
  config.laneWidth * lane + config.laneWidth / 2

/-- `simulation.ts` `isObstacleInLane`. -/
def isObstacleInLane (car : CarState) (obstacle : Obstacle) (config : SimulationConfig) : Bool :=
  decide (|getLaneCenter car.lane config - getLaneCenter obstacle.lane config| < config.laneWidth * 0.5)

/-- `simulation.ts` `generateObstacles`. -/
def generateObstacles (config : SimulationConfig) : List Obstacle :=
  let count : ℤ := max 1 (min 5 config.numObstacles)
  let startY : ℚ := 500
  let spacing : ℚ := if config.difficulty = Difficulty.hard then 350 else 500
  (List.range count.toNat).map (fun (i : ℕ) =>
    let lane : ℤ :=
      if config.difficulty = Difficulty.hard then
        (if i % 2 = 0 then 0 else 1)
      else
        (if i % 3 = 0 then 0 else if i % 3 = 1 then 1 else 0)
    { x := getLaneCenter lane config
      y := startY + (i : ℚ) * spacing
      lane := lane
      width := 60
      height := 40 })

/-- `simulation.ts` `createInitialState`. -/
def createInitialState (config : SimulationConfig) : SimulationState :=
  let carLane : ℤ := 0
  let adjustedConfig : SimulationConfig :=
    { config with roadLength := max config.roadLength (500 + (config.numObstacles : ℚ) * 600) }
  { car :=
      { x := getLaneCenter carLane adjustedConfig
        y := 0
        speed := adjustedConfig.initialSpeed
        lane := carLane
        steering := 0
        braking := false }
    obstacles := generateObstacles adjustedConfig
    status := SimStatus.idle
    patmosResult := Option.none
    patmosHistory := []
    elapsedTime := 0
    triggerDistance := Option.none
    timingComparison := Option.none }

/-- `simulation.ts` `stepSimulation`: pure fixed-step physics update.
The mutation sequence of the source (`structuredClone` then in-place field
updates) is rendered as sequential lets in the same order. -/
def stepSimulation (state : SimulationState) (dt : ℚ)
    (config : SimulationConfig) : SimulationState :=
  let elapsed := state.elapsedTime + dt
  let y1 := state.car.y + state.car.speed * dt
  let speed1 :=
    if state.car.braking then max 0 (state.car.speed - config.brakeDeceleration * dt)
    else state.car.speed
  let targetX := getLaneCenter state.car.lane config
  let dx := targetX - state.car.x
  let x1 :=
    if 1 < |dx| then state.car.x + (jsSign dx : ℚ) * config.laneChangeSpeed * config.laneWidth * dt
    else targetX
  let steering1 := if 1 < |dx| then jsSign dx else 0
  let car1 : CarState :=
    { x := x1, y := y1, speed := speed1, lane := state.car.lane
      steering := steering1, braking := state.car.braking }
  let collided := state.obstacles.any (fun obs =>
    decide (-20 < obs.y - car1.y) && decide (obs.y - car1.y < 30) &&
    decide (|car1.x - obs.x| < config.laneWidth * 0.4))
  let status1 := if collided then SimStatus.collision else state.status
  let allPassed := state.obstacles.all (fun obs => decide (obs.y + 100 < car1.y))
  let status2 :=
    if allPassed = true ∧ status1 ≠ SimStatus.collision then SimStatus.completed else status1
  let currentlyAvoiding := state.obstacles.any (fun obs =>
    decide (-30 < obs.y - car1.y) && decide (obs.y - car1.y < 80))
  let revert := status2 = SimStatus.avoiding ∧ currentlyAvoiding = false ∧ allPassed = false
  let status3 := if revert then SimStatus.running else status2
  let braking3 := if revert then false else car1.braking
  { state with
      car := { car1 with braking := braking3 }
      elapsedTime := elapsed
      status := status3 }

/-- `simulation.ts` `applyPatmosDecision`. -/
def applyPatmosDecision (state : SimulationState) (result : PatmosResponse)
    (_config : SimulationConfig) : SimulationState :=
  let s1 : SimulationState :=
    { state with
        patmosResult := Option.some result
        patmosHistory := state.patmosHistory ++ [result]
        status := SimStatus.avoiding }
  match result.action with
  | PAction.steer => { s1 with car := { s1.car with lane := result.target_lane } }
  | PAction.brake => { s1 with car := { s1.car with braking := true } }
  | PAction.none => s1

/-- `simulation.ts` `shouldTriggerPatmos`. -/
def shouldTriggerPatmos (state : SimulationState) (config : SimulationConfig) : Bool :=
  if state.status ≠ SimStatus.running then false
  else state.obstacles.any (fun obs =>
    decide (0 < obs.y - state.car.y) &&
    decide (obs.y - state.car.y < config.detectionThreshold) &&
    isObstacleInLane state.car obs config)

/-- Accumulator loop of `simulation.ts` `getNextObstacle` (`nearest` is the
running best candidate, a (distance, obstacle) pair). -/
def nextObsAux (car : CarState) (config : SimulationConfig) :
    List Obstacle → Option (ℚ × Obstacle) → Option (ℚ × Obstacle)
  | [], acc => acc
  | obs :: rest, acc =>
    let dist := obs.y - car.y
    let acc' :=
      if 0 < dist ∧ isObstacleInLane car obs config = true then
        match acc with
        | Option.none => Option.some (dist, obs)
        | Option.some (d, o) =>
          if dist < d then Option.some (dist, obs) else Option.some (d, o)
      else acc
    nextObsAux car config rest acc'

/-- `simulation.ts` `getNextObstacle`. -/
def getNextObstacle (state : SimulationState) (config : SimulationConfig) :
    Option (ℚ × Obstacle) :=
  nextObsAux state.car config state.obstacles Option.none

/-- `avoid.ts` `deterministic_cycles`: fixed per-branch cycle table keyed by
the action string (the numeric arguments are ignored, as in the source). -/
def deterministic_cycles (action : String) (_distance _speed : ℚ) : ℚ :=
  if action = "steer" then 542
  else if action = "brake" then 618
  else if action = "none" then 124
  else 200

/-- Branch selection of the `avoid.ts` handler:
(action, target_lane, brake_force, cycles_used, execution_path). -/
def avoidDecision (distance speed : ℚ) (lane : ℤ) :
    PAction × ℤ × ℚ × ℚ × String :=
  if distance < 200 then
    if lane = 0 then
      (PAction.steer, 1, 0, deterministic_cycles "steer" distance speed,
        "branch_A: distance < threshold, lane 0, steer right")
    else
      (PAction.brake, lane, min 1 (speed / 200), deterministic_cycles "brake" distance speed,
        "branch_B: distance < threshold, lane 1, brake")
  else
    (PAction.none, lane, 0, deterministic_cycles "none" distance speed,
      "branch_C: distance at or above threshold, no action")

/-- The `avoid.ts` `handler` response body: the POST handler minus transport.
`rand` stands for the one `Math.random()` call, `now` for `Date.now()`. -/
def avoidHandler (distance speed : ℚ) (lane : ℤ) (deadline_cycles : ℚ)
    (rand now : ℚ) : PatmosResponse × TimingComparison :=
  let dec := avoidDecision distance speed lane
  let cycles_used := dec.2.2.2.1
  let deadline_met := decide (cycles_used ≤ deadline_cycles)
  let normalBase : ℤ := ⌊cycles_used * 0.85⌋
  let normalJitter : ℤ := ⌊cycles_used * 0.35⌋
  let normalCycles : ℤ := normalBase + ⌊rand * (normalJitter : ℚ)⌋
  let timingComparison : TimingComparison :=
    { patmos :=
        { cycles := cycles_used, wcet := cycles_used, bcet := cycles_used
          jitter := 0, executionTimeMs := cycles_used * 0.01 }
      normal :=
        { cycles := (normalCycles : ℚ), wcet := ((normalBase + normalJitter : ℤ) : ℚ)
          bcet := (normalBase : ℚ), jitter := (normalJitter : ℚ)
          executionTimeMs := (normalCycles : ℚ) * 0.004 }
      speedup := (normalCycles : ℚ) / cycles_used
      predictabilityGain := if 0 < normalJitter then (normalJitter : ℚ) else 1 }
  ({ action := dec.1
     target_lane := dec.2.1
     brake_force := dec.2.2.1
     cycles_used := cycles_used
     deadline_cycles := deadline_cycles
     deadline_met := deadline_met
     execution_path := dec.2.2.2.2
     timestamp := now }, timingComparison)

/-- Track kind of `useDualSimulation.ts` (`"patmos" | "normal"`). -/
inductive Mode where
  | patmos
  | normal
deriving DecidableEq, Repr

/-- Branch selection of `useDualSimulation.ts` `buildDecision`:
(action, targetLane, baseCycles, execPath). -/
def buildBranch (simState : SimulationState) (obstacle : Obstacle)
    (config : SimulationConfig) : PAction × ℤ × ℚ × String :=
  if |simState.car.x - obstacle.x| < config.laneWidth * 0.4 ∧
      0 < obstacle.y - simState.car.y ∧
      obstacle.y - simState.car.y < config.detectionThreshold then
    if simState.car.lane = 0 then (PAction.steer, 1, 542, "branch_A: steer right")
    else (PAction.steer, 0, 542, "branch_A: steer left")
  else (PAction.none, simState.car.lane, 124, "branch_C: no obstacle in lane")

/-- Base cycle count chosen by `buildDecision` for a state and obstacle
index (124 when the index is out of range, which the source never hits). -/
def buildBase (simState : SimulationState) (obsIdx : ℕ)
    (config : SimulationConfig) : ℚ :=
  match simState.obstacles.get? obsIdx with
  | Option.none => 124
  | Option.some obstacle => (buildBranch simState obstacle config).2.2.1

/-- `useDualSimulation.ts` `buildDecision`.  `r1` is the `Math.random()` of
the jitter sample, `r2` that of the delay sample, `now` is `Date.now()`.
Returns the (result, delayMs) pair; `Option.none` models the out-of-range
obstacle access the source never performs. -/
def buildDecision (simState : SimulationState) (obsIdx : ℕ)
    (config : SimulationConfig) (mode : Mode) (r1 r2 now : ℚ) :
    Option (PatmosResponse × ℚ) :=
  match simState.obstacles.get? obsIdx with
  | Option.none => Option.none
  | Option.some obstacle =>
    let br := buildBranch simState obstacle config
    let baseCycles := br.2.2.1
    let cycles :=
      match mode with
      | Mode.patmos => baseCycles
      | Mode.normal => baseCycles + (⌊baseCycles * 0.15 + r1 * (baseCycles * 0.35)⌋ : ℤ)
    let delayMs : ℚ :=
      match mode with
      | Mode.patmos => 5
      | Mode.normal => 80 + (⌊r2 * 170⌋ : ℤ)
    let execPath :=
      match mode with
      | Mode.patmos => br.2.2.2
      | Mode.normal => br.2.2.2 ++ " (+ cache/pipeline jitter)"
    Option.some
      ({ action := br.1
         target_lane := br.2.1
         brake_force := 0
         cycles_used := cycles
         deadline_cycles := 800
         deadline_met := decide (cycles ≤ 800)
         execution_path := execPath
         timestamp := now }, delayMs)

/-- `useDualSimulation.ts` `ObstacleTimingEvent`. -/
structure ObstacleTimingEvent where
  obstacleIndex : ℕ
  detectedAt : ℚ
  decidedAt : ℚ
  avoidedAt : Option ℚ
  reactionMs : ℚ
  action : PAction
  cycles : ℚ
deriving DecidableEq, Repr

/-- Resolution callback of `useDualSimulation.ts` `dispatchDecision` (the
body of its `setTimeout`), restricted to the one track it touches:
discards the decision when the track is already terminal, otherwise merges
it into the current state and replaces the event for that obstacle. -/
def resolveDualDecision (track : SimulationState)
    (events : List ObstacleTimingEvent) (pendingDetectedAt : Option ℚ)
    (obsIdx : ℕ) (result : PatmosResponse) (delayMs : ℚ)
    (config : SimulationConfig) : SimulationState × List ObstacleTimingEvent :=
  if track.status = SimStatus.collision ∨ track.status = SimStatus.completed then
    (track, events)
  else
    let next := applyPatmosDecision track result config
    let detectedAt := pendingDetectedAt.getD track.elapsedTime
    let event : ObstacleTimingEvent :=
      { obstacleIndex := obsIdx
        detectedAt := detectedAt
        decidedAt := next.elapsedTime
        avoidedAt := Option.none
        reactionMs := delayMs
        action := result.action
        cycles := result.cycles_used }
    (next, events.filter (fun e => decide (e.obstacleIndex ≠ obsIdx)) ++ [event])

/-- Resolution callback of `useCarSimulation.ts` `callPatmosAPI` (its
`setState` updater): terminal states are left untouched, otherwise the
decision is applied and the timing comparison recorded. -/
def resolveSingleDecision (prev : SimulationState) (result : PatmosResponse)
    (tc : Option TimingComparison) (config : SimulationConfig) : SimulationState :=
  if prev.status = SimStatus.collision ∨ prev.status = SimStatus.completed then prev
  else { applyPatmosDecision prev result config with timingComparison := tc }

/-- Fixed timestep of both hooks (`1 / 60`). -/
def FIXED_DT : ℚ := 1 / 60

/-- JavaScript `Array.prototype.indexOf` under structural equality: index of
the first equal element, or the length when absent (the source guards with
`idx >= 0`, modelled as `idx < length`). -/
def jsIndexOf (l : List Obstacle) (o : Obstacle) : ℕ :=
  l.findIdx (fun x => decide (x = o))

/-- Per-track loop state of the orchestrator: the simulation state plus the
track's already-triggered obstacle-index set. -/
structure TrackLoopState where
  sim : SimulationState
  triggered : Finset ℕ
deriving DecidableEq

/-- One fixed-timestep iteration of the per-track body of the orchestrator
loop (`useDualSimulation.ts` `loop`; `useCarSimulation.ts` has the same
shape): skip when terminal, otherwise step the physics, and on a qualifying
not-yet-triggered obstacle mark it triggered, stamp the state, and dispatch.
The returned `Option ℕ` is the dispatched obstacle index, if any. -/
def trackTick (config : SimulationConfig) (ts : TrackLoopState) :
    TrackLoopState × Option ℕ :=
  if ts.sim.status = SimStatus.collision ∨ ts.sim.status = SimStatus.completed then
    (ts, Option.none)
  else
    let sim1 := stepSimulation ts.sim FIXED_DT config
    if shouldTriggerPatmos sim1 config then
      match getNextObstacle sim1 config with
      | Option.some nxt =>
        let idx := jsIndexOf sim1.obstacles nxt.2
        if idx < sim1.obstacles.length ∧ idx ∉ ts.triggered then
          ({ sim := { sim1 with status := SimStatus.patmosTriggered
                                triggerDistance := Option.some nxt.1 }
             triggered := insert idx ts.triggered }, Option.some idx)
        else ({ sim := sim1, triggered := ts.triggered }, Option.none)
      | Option.none => ({ sim := sim1, triggered := ts.triggered }, Option.none)
    else ({ sim := sim1, triggered := ts.triggered }, Option.none)

/-- `n` iterations of `trackTick`, collecting the dispatch log in order. -/
def trackRun (config : SimulationConfig) (ts : TrackLoopState) :
    ℕ → TrackLoopState × List ℕ
  | 0 => (ts, [])
  | n + 1 =>
    let step1 := trackTick config ts
    let rest := trackRun config step1.1 n
    (rest.1, step1.2.toList ++ rest.2)

/-! Concrete fixtures used by witness and counterexample theorems. -/

/-- A run state with the car in lane 1 and an in-lane obstacle 100 units
ahead (inside the default detection threshold of 250). -/
def carLane1State : SimulationState :=
  { car := { x := 180, y := 0, speed := 100, lane := 1, steering := 0, braking := false }
    obstacles := [{ x := 180, y := 100, lane := 1, width := 60, height := 40 }]
    status := SimStatus.running
    patmosResult := Option.none
    patmosHistory := []
    elapsedTime := 0
    triggerDistance := Option.none
    timingComparison := Option.none }

/-- A run state whose only obstacle is in the car's lane but 1000 units
ahead, far outside the default detection threshold of 250. -/
def farObstacleState : SimulationState :=
  { car := { x := 60, y := 0, speed := 120, lane := 0, steering := 0, braking := false }
    obstacles := [{ x := 60, y := 1000, lane := 0, width := 60, height := 40 }]
    status := SimStatus.running
    patmosResult := Option.none
    patmosHistory := []
    elapsedTime := 0
    triggerDistance := Option.none
    timingComparison := Option.none }

/-- The far obstacle of `farObstacleState`. -/
def farObstacle : Obstacle :=
  { x := 60, y := 1000, lane := 0, width := 60, height := 40 }

/-- A terminal (collided) state. -/
def collidedState : SimulationState :=
  { carLane1State with status := SimStatus.collision }

/-- A decision result fixture (a brake decision). -/
def brakeResult : PatmosResponse :=
  { action := PAction.brake, target_lane := 1, brake_force := 0.5
    cycles_used := 618, deadline_cycles := 800, deadline_met := true
    execution_path := "branch_B", timestamp := 0 }

/-- Qualification predicate of the trigger detector: the obstacle is
strictly ahead of the car and in the car's lane. -/
def qualifies (car : CarState) (config : SimulationConfig) (obs : Obstacle) : Prop :=
  0 < obs.y - car.y ∧ isObstacleInLane car obs config = true

instance (car : CarState) (config : SimulationConfig) (obs : Obstacle) :
    Decidable (qualifies car config obs) :=
  inferInstanceAs (Decidable (_ ∧ _))

/-! Supporting lemmas. -/

lemma deterministic_cycles_steer (d s : ℚ) : deterministic_cycles "steer" d s = 542 := rfl

lemma deterministic_cycles_brake (d s : ℚ) : deterministic_cycles "brake" d s = 618 := rfl

lemma deterministic_cycles_none (d s : ℚ) : deterministic_cycles "none" d s = 124 := rfl

/-- The speed written by `stepSimulation` is exactly the braking update. -/
lemma stepSimulation_speed (s : SimulationState) (dt : ℚ) (config : SimulationConfig) :
    (stepSimulation s dt config).car.speed =
      if s.car.braking then max 0 (s.car.speed - config.brakeDeceleration * dt)
      else s.car.speed := rfl

/-- C7: for speed ≥ 0, dt ≥ 0, brakeDeceleration ≥ 0, `stepSimulation` never
produces a negative speed; with the braking flag set the speed decreases by
`brakeDeceleration * dt` floored at 0, and without it the speed is
unchanged. -/
theorem C7_step_speed_nonneg (s : SimulationState) (dt : ℚ) (config : SimulationConfig)
    (hspeed : 0 ≤ s.car.speed) (hdt : 0 ≤ dt) (hdec : 0 ≤ config.brakeDeceleration) :
    0 ≤ (stepSimulation s dt config).car.speed ∧
    (s.car.braking = true →
      (stepSimulation s dt config).car.speed =
        max 0 (s.car.speed - config.brakeDeceleration * dt)) ∧
    (s.car.braking = false → (stepSimulation s dt config).car.speed = s.car.speed) := by
  rw [stepSimulation_speed]
  cases hb : s.car.braking with
  | false => simpa using hspeed
  | true => simp

/-- C7 witness: the theorem applied at a concrete non-braking state. -/
theorem C7_witness :
    0 ≤ (stepSimulation carLane1State FIXED_DT DEFAULT_CONFIG).car.speed ∧
    (carLane1State.car.braking = true →
      (stepSimulation carLane1State FIXED_DT DEFAULT_CONFIG).car.speed =
        max 0 (carLane1State.car.speed - DEFAULT_CONFIG.brakeDeceleration * FIXED_DT)) ∧
    (carLane1State.car.braking = false →
      (stepSimulation carLane1State FIXED_DT DEFAULT_CONFIG).car.speed =
        carLane1State.car.speed) :=
  C7_step_speed_nonneg carLane1State FIXED_DT DEFAULT_CONFIG
    (by norm_num [carLane1State]) (by norm_num [FIXED_DT]) (by norm_num [DEFAULT_CONFIG])

/-- C8: for every configuration, regardless of the `numObstacles` supplied
(including 0, negatives, or values above 5), `createInitialState` yields
between 1 and 5 obstacles inclusive. -/
theorem C8_obstacle_count_clamped (config : SimulationConfig) :
    1 ≤ (createInitialState config).obstacles.length ∧
    (createInitialState config).obstacles.length ≤ 5 := by
  have h : (createInitialState config).obstacles.length =
      (max 1 (min 5 config.numObstacles)).toNat := by
    simp only [createInitialState, generateObstacles]
    rw [List.length_map, List.length_range]
  rw [h]
  omega

/-- C9: `stepSimulation` is pure and only touches the car, elapsed time and
status: the obstacles, patmosResult, patmosHistory, triggerDistance and
timingComparison of its output equal those of its input. -/
theorem C9_step_frame (s : SimulationState) (dt : ℚ) (config : SimulationConfig) :
    (stepSimulation s dt config).obstacles = s.obstacles ∧
    (stepSimulation s dt config).patmosResult = s.patmosResult ∧
    (stepSimulation s dt config).patmosHistory = s.patmosHistory ∧
    (stepSimulation s dt config).triggerDistance = s.triggerDistance ∧
    (stepSimulation s dt config).timingComparison = s.timingComparison :=
  ⟨rfl, rfl, rfl, rfl, rfl⟩

/-- The cycle count of the avoid branch table is nonnegative. -/
lemma avoidDecision_cycles_nonneg (distance speed : ℚ) (lane : ℤ) :
    0 ≤ (avoidDecision distance speed lane).2.2.2.1 := by
  unfold avoidDecision
  split_ifs <;>
    norm_num [deterministic_cycles_steer, deterministic_cycles_brake, deterministic_cycles_none]

/-- C2: patmos-mode decisions are deterministic.  In the API handler the
(action, cycles_used, deadline_met) triple is independent of the random
sample and the clock, the patmos jitter is 0, the cycle count is the table
value of the branch taken, and the deadline is met iff the count is at most
the deadline; the in-process `buildDecision` in patmos mode is likewise
independent of both random samples, uses the table value of its branch, and
meets the deadline iff the count is at most the deadline. -/
theorem C2_patmos_determinism :
    (∀ (distance speed : ℚ) (lane : ℤ) (deadline r r' now now' : ℚ),
      (avoidHandler distance speed lane deadline r now).1.action =
        (avoidHandler distance speed lane deadline r' now').1.action ∧
      (avoidHandler distance speed lane deadline r now).1.cycles_used =
        (avoidHandler distance speed lane deadline r' now').1.cycles_used ∧
      (avoidHandler distance speed lane deadline r now).1.deadline_met =
        (avoidHandler distance speed lane deadline r' now').1.deadline_met) ∧
    (∀ (distance speed : ℚ) (lane : ℤ) (deadline r now : ℚ),
      (avoidHandler distance speed lane deadline r now).2.patmos.jitter = 0 ∧
      ((avoidHandler distance speed lane deadline r now).1.deadline_met = true ↔
        (avoidHandler distance speed lane deadline r now).1.cycles_used ≤
          (avoidHandler distance speed lane deadline r now).1.deadline_cycles) ∧
      ((avoidHandler distance speed lane deadline r now).1.action = PAction.steer →
        (avoidHandler distance speed lane deadline r now).1.cycles_used = 542) ∧
      ((avoidHandler distance speed lane deadline r now).1.action = PAction.brake →
        (avoidHandler distance speed lane deadline r now).1.cycles_used = 618) ∧
      ((avoidHandler distance speed lane deadline r now).1.action = PAction.none →
        (avoidHandler distance speed lane deadline r now).1.cycles_used = 124)) ∧
    (∀ (simState : SimulationState) (obsIdx : ℕ) (config : SimulationConfig)
        (r1 r2 r1' r2' now : ℚ),
      buildDecision simState obsIdx config Mode.patmos r1 r2 now =
        buildDecision simState obsIdx config Mode.patmos r1' r2' now) ∧
    (∀ (simState : SimulationState) (obsIdx : ℕ) (config : SimulationConfig)
        (r1 r2 now : ℚ) (res : PatmosResponse) (delay : ℚ),
      buildDecision simState obsIdx config Mode.patmos r1 r2 now =
        Option.some (res, delay) →
      (res.deadline_met = true ↔ res.cycles_used ≤ res.deadline_cycles) ∧
      (res.action = PAction.steer → res.cycles_used = 542) ∧
      (res.action = PAction.brake → res.cycles_used = 618) ∧
      (res.action = PAction.none → res.cycles_used = 124)) := by
  refine ⟨fun distance speed lane deadline r r' now now' => ⟨rfl, rfl, rfl⟩,
    fun distance speed lane deadline r now => ⟨rfl, decide_eq_true_iff, ?_, ?_, ?_⟩,
    fun simState obsIdx config r1 r2 r1' r2' now => ?_,
    fun simState obsIdx config r1 r2 now res delay h => ?_⟩
  · show (avoidDecision distance speed lane).1 = PAction.steer →
      (avoidDecision distance speed lane).2.2.2.1 = 542
    unfold avoidDecision
    split_ifs <;> simp [deterministic_cycles_steer]
  · show (avoidDecision distance speed lane).1 = PAction.brake →
      (avoidDecision distance speed lane).2.2.2.1 = 618
    unfold avoidDecision
    split_ifs <;> simp [deterministic_cycles_brake]
  · show (avoidDecision distance speed lane).1 = PAction.none →
      (avoidDecision distance speed lane).2.2.2.1 = 124
    unfold avoidDecision
    split_ifs <;> simp [deterministic_cycles_none]
  · unfold buildDecision
    cases simState.obstacles.get? obsIdx <;> rfl
  · unfold buildDecision at h
    cases hget : simState.obstacles.get? obsIdx with
    | none => rw [hget] at h; exact absurd h (by simp)
    | some obstacle =>
      rw [hget] at h
      simp only [Option.some.injEq, Prod.mk.injEq] at h
      obtain ⟨hres, -⟩ := h
      subst hres
      refine ⟨decide_eq_true_iff, ?_, ?_, ?_⟩ <;>
        · show (buildBranch simState obstacle config).1 = _ →
            (buildBranch simState obstacle config).2.2.1 = _
          unfold buildBranch
          split_ifs <;> simp

/-- C2 witness: determinism instantiated at the branch-B inputs, with the
buildDecision hypotheses discharged on `carLane1State`. -/
theorem C2_witness :
    ((avoidHandler 100 100 1 800 (1/2) 7).1.action =
      (avoidHandler 100 100 1 800 (1/3) 9).1.action) ∧
    ((avoidHandler 100 100 1 800 0 0).1.action = PAction.brake →
      (avoidHandler 100 100 1 800 0 0).1.cycles_used = 618) := by
  refine ⟨(C2_patmos_determinism.1 100 100 1 800 (1/2) (1/3) 7 9).1, ?_⟩
  exact (C2_patmos_determinism.2.1 100 100 1 800 0 0).2.2.2.1

/-- C1 counterexample: with the car in lane 1 and an in-lane obstacle 100
units ahead (inside the default threshold 250), the dual-track in-process
path returns a steer (to lane 0, 542 cycles), not the claimed brake. -/
theorem C1_counterexample :
    carLane1State.car.lane = 1 ∧
    ((100 : ℚ) < DEFAULT_CONFIG.detectionThreshold) ∧
    (buildDecision carLane1State 0 DEFAULT_CONFIG Mode.patmos 0 0 0).map
        (fun p => (p.1.action, p.1.target_lane, p.1.cycles_used)) =
      Option.some (PAction.steer, 0, 542) := by
  refine ⟨rfl, by norm_num [DEFAULT_CONFIG], ?_⟩
  norm_num [buildDecision, buildBranch, carLane1State, DEFAULT_CONFIG]

/-- C1 amended: the brake branch exists only in the single-track API path:
there, distance below the hard-coded threshold 200 with lane 1 yields a
brake with force min(1, speed/200) and exactly 618 cycles.  The dual-track
in-process path never brakes: its results always carry brake_force 0 and an
action other than brake (for lane 1 in range it steers to lane 0 at 542
cycles). -/
theorem C1_amended :
    (∀ (distance speed deadline r now : ℚ), distance < 200 →
      (avoidHandler distance speed 1 deadline r now).1.action = PAction.brake ∧
      (avoidHandler distance speed 1 deadline r now).1.brake_force = min 1 (speed / 200) ∧
      (avoidHandler distance speed 1 deadline r now).1.cycles_used = 618) ∧
    (∀ (simState : SimulationState) (obsIdx : ℕ) (config : SimulationConfig)
        (mode : Mode) (r1 r2 now : ℚ) (res : PatmosResponse) (delay : ℚ),
      buildDecision simState obsIdx config mode r1 r2 now = Option.some (res, delay) →
      res.action ≠ PAction.brake ∧ res.brake_force = 0) := by
  constructor
  · intro distance speed deadline r now hdist
    have h1 : (avoidHandler distance speed 1 deadline r now).1.action =
        (avoidDecision distance speed 1).1 := rfl
    have h2 : (avoidHandler distance speed 1 deadline r now).1.brake_force =
        (avoidDecision distance speed 1).2.2.1 := rfl
    have h3 : (avoidHandler distance speed 1 deadline r now).1.cycles_used =
        (avoidDecision distance speed 1).2.2.2.1 := rfl
    rw [h1, h2, h3]
    unfold avoidDecision
    rw [if_pos hdist, if_neg (by norm_num)]
    refine ⟨rfl, rfl, ?_⟩
    show deterministic_cycles "brake" distance speed = 618
    exact deterministic_cycles_brake distance speed
  · intro simState obsIdx config mode r1 r2 now res delay h
    unfold buildDecision at h
    cases hget : simState.obstacles.get? obsIdx with
    | none => rw [hget] at h; exact absurd h (by simp)
    | some obstacle =>
      rw [hget] at h
      simp only [Option.some.injEq, Prod.mk.injEq] at h
      obtain ⟨hres, -⟩ := h
      subst hres
      refine ⟨?_, rfl⟩
      show (buildBranch simState obstacle config).1 ≠ PAction.brake
      unfold buildBranch
      split_ifs <;> simp

/-- C1 witness: the amended API-path branch at distance 100, speed 100,
lane 1, and the dual-path clause at `carLane1State`. -/
theorem C1_witness :
    ((avoidHandler 100 100 1 800 0 0).1.action = PAction.brake ∧
      (avoidHandler 100 100 1 800 0 0).1.brake_force = min 1 ((100 : ℚ) / 200) ∧
      (avoidHandler 100 100 1 800 0 0).1.cycles_used = 618) ∧
    ((buildDecision carLane1State 0 DEFAULT_CONFIG Mode.patmos 0 0 0).map
        (fun p => p.1.brake_force) = Option.some 0) := by
  refine ⟨C1_amended.1 100 100 800 0 0 (by norm_num), ?_⟩
  norm_num [buildDecision, buildBranch, carLane1State, DEFAULT_CONFIG]

/-- C6: when a dispatched decision resolves while the track is terminal
(collision or completed), the resolution is a no-op — the state and the
event log are left unchanged; otherwise the decision is merged into the
current state via `applyPatmosDecision`.  This holds for the dual-track
resolver and for the single-track API resolver. -/
theorem C6_terminal_resolution_noop :
    (∀ (track : SimulationState) (events : List ObstacleTimingEvent)
        (pend : Option ℚ) (obsIdx : ℕ) (result : PatmosResponse)
        (delayMs : ℚ) (config : SimulationConfig),
      (track.status = SimStatus.collision ∨ track.status = SimStatus.completed →
        resolveDualDecision track events pend obsIdx result delayMs config = (track, events)) ∧
      (¬(track.status = SimStatus.collision ∨ track.status = SimStatus.completed) →
        (resolveDualDecision track events pend obsIdx result delayMs config).1 =
          applyPatmosDecision track result config)) ∧
    (∀ (prev : SimulationState) (result : PatmosResponse)
        (tc : Option TimingComparison) (config : SimulationConfig),
      (prev.status = SimStatus.collision ∨ prev.status = SimStatus.completed →
        resolveSingleDecision prev result tc config = prev) ∧
      (¬(prev.status = SimStatus.collision ∨ prev.status = SimStatus.completed) →
        resolveSingleDecision prev result tc config =
          { applyPatmosDecision prev result config with timingComparison := tc })) := by
  constructor
  · intro track events pend obsIdx result delayMs config
    constructor
    · intro h
      unfold resolveDualDecision
      rw [if_pos h]
    · intro h
      unfold resolveDualDecision
      rw [if_neg h]
  · intro prev result tc config
    constructor
    · intro h
      unfold resolveSingleDecision
      rw [if_pos h]
    · intro h
      unfold resolveSingleDecision
      rw [if_neg h]

/-- C6 witness: resolution against a collided track leaves it untouched,
and against a running track merges the decision. -/
theorem C6_witness :
    resolveDualDecision collidedState [] Option.none 0 brakeResult 5 DEFAULT_CONFIG =
      (collidedState, []) ∧
    resolveSingleDecision carLane1State brakeResult Option.none DEFAULT_CONFIG =
      { applyPatmosDecision carLane1State brakeResult DEFAULT_CONFIG with
          timingComparison := Option.none } := by
  constructor
  · exact (C6_terminal_resolution_noop.1 collidedState [] Option.none 0 brakeResult 5
      DEFAULT_CONFIG).1 (Or.inl rfl)
  · exact (C6_terminal_resolution_noop.2 carLane1State brakeResult Option.none
      DEFAULT_CONFIG).2 (by simp [carLane1State])

/-- C10 counterexample: two decision results differing only in brake_force
yield different states, because the full result (brake_force included) is
recorded in `patmosResult` and `patmosHistory`. -/
theorem C10_counterexample :
    ({ brakeResult with brake_force := 1 } : PatmosResponse).action = brakeResult.action ∧
    ({ brakeResult with brake_force := 1 } : PatmosResponse).brake_force ≠
      brakeResult.brake_force ∧
    applyPatmosDecision carLane1State { brakeResult with brake_force := 1 } DEFAULT_CONFIG ≠
      applyPatmosDecision carLane1State brakeResult DEFAULT_CONFIG := by
  refine ⟨rfl, by norm_num [brakeResult], fun h => ?_⟩
  have h1 := congrArg SimulationState.patmosResult h
  have e1 : (applyPatmosDecision carLane1State { brakeResult with brake_force := 1 }
      DEFAULT_CONFIG).patmosResult =
      Option.some { brakeResult with brake_force := 1 } := rfl
  have e2 : (applyPatmosDecision carLane1State brakeResult DEFAULT_CONFIG).patmosResult =
      Option.some brakeResult := rfl
  rw [e1, e2] at h1
  have h2 := congrArg PatmosResponse.brake_force (Option.some.inj h1)
  norm_num [brakeResult] at h2

/-- C10 amended: the car dynamics and status written by
`applyPatmosDecision` are independent of brake_force (only the stored
result/history record it): a brake decision only sets the braking flag
(deceleration later always uses config.brakeDeceleration), a steer decision
only sets the lane, the status always becomes avoiding, and the result is
always appended to patmosHistory, "none" actions included. -/
theorem C10_brake_force_ignored (s : SimulationState) (r : PatmosResponse) (bf : ℚ)
    (config : SimulationConfig) :
    (applyPatmosDecision s { r with brake_force := bf } config).car =
      (applyPatmosDecision s r config).car ∧
    (applyPatmosDecision s { r with brake_force := bf } config).status =
      (applyPatmosDecision s r config).status ∧
    (applyPatmosDecision s r config).status = SimStatus.avoiding ∧
    (applyPatmosDecision s r config).patmosHistory = s.patmosHistory ++ [r] ∧
    (r.action = PAction.brake →
      (applyPatmosDecision s r config).car = { s.car with braking := true }) ∧
    (r.action = PAction.steer →
      (applyPatmosDecision s r config).car = { s.car with lane := r.target_lane }) ∧
    (r.action = PAction.none → (applyPatmosDecision s r config).car = s.car) ∧
    (∀ (s' : SimulationState) (dt : ℚ), s'.car.braking = true →
      (stepSimulation s' dt config).car.speed =
        max 0 (s'.car.speed - config.brakeDeceleration * dt)) := by
  have hact : ({ r with brake_force := bf } : PatmosResponse).action = r.action := rfl
  cases hr : r.action with
  | steer =>
    refine ⟨?_, ?_, ?_, ?_, ?_, ?_, ?_,
        fun s' dt hb => by rw [stepSimulation_speed, hb]; simp⟩ <;>
      simp [applyPatmosDecision, hact, hr]
  | brake =>
    refine ⟨?_, ?_, ?_, ?_, ?_, ?_, ?_,
        fun s' dt hb => by rw [stepSimulation_speed, hb]; simp⟩ <;>
      simp [applyPatmosDecision, hact, hr]
  | none =>
    refine ⟨?_, ?_, ?_, ?_, ?_, ?_, ?_,
        fun s' dt hb => by rw [stepSimulation_speed, hb]; simp⟩ <;>
      simp [applyPatmosDecision, hact, hr]

/-- C10 witness: the amended theorem at a concrete brake decision. -/
theorem C10_witness :
    (applyPatmosDecision carLane1State { brakeResult with brake_force := 1 }
        DEFAULT_CONFIG).car =
      (applyPatmosDecision carLane1State brakeResult DEFAULT_CONFIG).car ∧
    (applyPatmosDecision carLane1State brakeResult DEFAULT_CONFIG).car =
      { carLane1State.car with braking := true } := by
  have h := C10_brake_force_ignored carLane1State brakeResult 1 DEFAULT_CONFIG
  exact ⟨h.1, h.2.2.2.2.1 rfl⟩

/-- C4 counterexample: at distance 100, lane 1 (base 618) with random
sample 0, the API's normal-CPU cycle count is 525, strictly below the
claimed lower bound 0.85 × 618 = 525.3. -/
theorem C4_counterexample :
    (avoidHandler 100 100 1 800 0 0).1.cycles_used = 618 ∧
    (avoidHandler 100 100 1 800 0 0).2.normal.cycles = 525 ∧
    (avoidHandler 100 100 1 800 0 0).2.normal.cycles <
      0.85 * (avoidHandler 100 100 1 800 0 0).1.cycles_used := by
  refine ⟨rfl, ?_, ?_⟩ <;>
    norm_num [avoidHandler, avoidDecision, deterministic_cycles_brake]

/-- The base cycle count of `buildBranch` is one of the table values. -/
lemma buildBranch_base_cases (simState : SimulationState) (obstacle : Obstacle)
    (config : SimulationConfig) :
    (buildBranch simState obstacle config).2.2.1 = 542 ∨
    (buildBranch simState obstacle config).2.2.1 = 124 := by
  unfold buildBranch
  split_ifs <;> simp

/-- C4 amended: the two normal-mode samplers have different (floored)
ranges.  The API sampler stays within [⌊0.85·base⌋, ⌊0.85·base⌋ +
⌊0.35·base⌋] — the floors make the lower end fall just below the documented
0.85·base.  The in-process sampler instead adds jitter on top of the full
base: it stays within [base + ⌊0.15·base⌋, base + ⌊0.5·base⌋], entirely
above the documented range's scale. -/
theorem C4_normal_sampler_bounds :
    (∀ (distance speed : ℚ) (lane : ℤ) (deadline r now : ℚ), 0 ≤ r → r < 1 →
      ((⌊(avoidHandler distance speed lane deadline r now).1.cycles_used * 0.85⌋ : ℚ) ≤
        (avoidHandler distance speed lane deadline r now).2.normal.cycles ∧
      (avoidHandler distance speed lane deadline r now).2.normal.cycles ≤
        (⌊(avoidHandler distance speed lane deadline r now).1.cycles_used * 0.85⌋ : ℚ) +
        (⌊(avoidHandler distance speed lane deadline r now).1.cycles_used * 0.35⌋ : ℚ))) ∧
    (∀ (simState : SimulationState) (obsIdx : ℕ) (config : SimulationConfig)
        (r1 r2 now : ℚ) (res : PatmosResponse) (delay : ℚ), 0 ≤ r1 → r1 < 1 →
      buildDecision simState obsIdx config Mode.normal r1 r2 now = Option.some (res, delay) →
      (buildBase simState obsIdx config +
          (⌊buildBase simState obsIdx config * 0.15⌋ : ℚ) ≤ res.cycles_used ∧
        res.cycles_used ≤ buildBase simState obsIdx config +
          (⌊buildBase simState obsIdx config * 0.5⌋ : ℚ))) := by
  constructor
  · intro distance speed lane deadline r now hr0 hr1
    have hcu : (avoidHandler distance speed lane deadline r now).1.cycles_used =
        (avoidDecision distance speed lane).2.2.2.1 := rfl
    set cu := (avoidDecision distance speed lane).2.2.2.1 with hcud
    have hcycles : (avoidHandler distance speed lane deadline r now).2.normal.cycles =
        ((⌊cu * 0.85⌋ + ⌊r * ((⌊cu * 0.35⌋ : ℤ) : ℚ)⌋ : ℤ) : ℚ) := rfl
    have hnj0 : (0 : ℤ) ≤ ⌊cu * 0.35⌋ := by
      apply Int.floor_nonneg.mpr
      have := avoidDecision_cycles_nonneg distance speed lane
      nlinarith
    have hf0 : (0 : ℤ) ≤ ⌊r * ((⌊cu * 0.35⌋ : ℤ) : ℚ)⌋ := by
      apply Int.floor_nonneg.mpr
      have : (0 : ℚ) ≤ ((⌊cu * 0.35⌋ : ℤ) : ℚ) := by exact_mod_cast hnj0
      positivity
    have hfle : ⌊r * ((⌊cu * 0.35⌋ : ℤ) : ℚ)⌋ ≤ ⌊cu * 0.35⌋ := by
      have hc : (0 : ℚ) ≤ ((⌊cu * 0.35⌋ : ℤ) : ℚ) := by exact_mod_cast hnj0
      calc ⌊r * ((⌊cu * 0.35⌋ : ℤ) : ℚ)⌋ ≤ ⌊((⌊cu * 0.35⌋ : ℤ) : ℚ)⌋ :=
            Int.floor_le_floor (mul_le_of_le_one_left hc hr1.le)
        _ = ⌊cu * 0.35⌋ := Int.floor_intCast _
    rw [hcu, hcycles]
    constructor
    · push_cast
      have : (0 : ℚ) ≤ ((⌊r * ((⌊cu * 0.35⌋ : ℤ) : ℚ)⌋ : ℤ) : ℚ) := by exact_mod_cast hf0
      linarith
    · push_cast
      have : ((⌊r * ((⌊cu * 0.35⌋ : ℤ) : ℚ)⌋ : ℤ) : ℚ) ≤ ((⌊cu * 0.35⌋ : ℤ) : ℚ) := by
        exact_mod_cast hfle
      linarith
  · intro simState obsIdx config r1 r2 now res delay hr0 hr1 h
    unfold buildDecision at h
    cases hget : simState.obstacles.get? obsIdx with
    | none => rw [hget] at h; exact absurd h (by simp)
    | some obstacle =>
      rw [hget] at h
      simp only [Option.some.injEq, Prod.mk.injEq] at h
      obtain ⟨hres, -⟩ := h
      have hbase : buildBase simState obsIdx config =
          (buildBranch simState obstacle config).2.2.1 := by
        unfold buildBase
        rw [hget]
      set b := (buildBranch simState obstacle config).2.2.1 with hb
      have hb0 : (0 : ℚ) ≤ b := by
        rcases buildBranch_base_cases simState obstacle config with hc | hc <;>
          rw [hb, hc] <;> norm_num
      have hcu : res.cycles_used = b + ((⌊b * 0.15 + r1 * (b * 0.35)⌋ : ℤ) : ℚ) := by
        rw [← hres]
      have hlow : ⌊b * 0.15⌋ ≤ ⌊b * 0.15 + r1 * (b * 0.35)⌋ := by
        apply Int.floor_le_floor
        nlinarith
      have hhigh : ⌊b * 0.15 + r1 * (b * 0.35)⌋ ≤ ⌊b * 0.5⌋ := by
        apply Int.floor_le_floor
        nlinarith
      rw [hbase, hcu]
      constructor
      · have : ((⌊b * 0.15⌋ : ℤ) : ℚ) ≤ ((⌊b * 0.15 + r1 * (b * 0.35)⌋ : ℤ) : ℚ) := by
          exact_mod_cast hlow
        linarith
      · have : ((⌊b * 0.15 + r1 * (b * 0.35)⌋ : ℤ) : ℚ) ≤ ((⌊b * 0.5⌋ : ℤ) : ℚ) := by
          exact_mod_cast hhigh
        linarith

/-- C4 witness: both amended bounds instantiated at concrete inputs with
random sample 1/2. -/
theorem C4_witness :
    ((⌊(avoidHandler 100 100 1 800 (1/2) 0).1.cycles_used * 0.85⌋ : ℚ) ≤
      (avoidHandler 100 100 1 800 (1/2) 0).2.normal.cycles ∧
      (avoidHandler 100 100 1 800 (1/2) 0).2.normal.cycles ≤
        (⌊(avoidHandler 100 100 1 800 (1/2) 0).1.cycles_used * 0.85⌋ : ℚ) +
        (⌊(avoidHandler 100 100 1 800 (1/2) 0).1.cycles_used * 0.35⌋ : ℚ)) ∧
    (buildBase carLane1State 0 DEFAULT_CONFIG +
        (⌊buildBase carLane1State 0 DEFAULT_CONFIG * 0.15⌋ : ℚ) ≤
      ((buildDecision carLane1State 0 DEFAULT_CONFIG Mode.normal (1/2) 0 0).map
          (fun p => p.1.cycles_used)).getD 0 ∧
      ((buildDecision carLane1State 0 DEFAULT_CONFIG Mode.normal (1/2) 0 0).map
          (fun p => p.1.cycles_used)).getD 0 ≤
        buildBase carLane1State 0 DEFAULT_CONFIG +
        (⌊buildBase carLane1State 0 DEFAULT_CONFIG * 0.5⌋ : ℚ)) := by
  constructor
  · exact C4_normal_sampler_bounds.1 100 100 1 800 (1/2) 0 (by norm_num) (by norm_num)
  · have h := C4_normal_sampler_bounds.2 carLane1State 0 DEFAULT_CONFIG (1/2) 0 0
    have hsome : buildDecision carLane1State 0 DEFAULT_CONFIG Mode.normal (1/2) 0 0 =
        Option.some
          (({ action := PAction.steer
              target_lane := 0
              brake_force := 0
              cycles_used := 718
              deadline_cycles := 800
              deadline_met := true
              execution_path := "branch_A: steer left" ++ " (+ cache/pipeline jitter)"
              timestamp := 0 } : PatmosResponse), (80 : ℚ)) := by
      norm_num [buildDecision, buildBranch, carLane1State, DEFAULT_CONFIG]
    have h2 := h _ _ (by norm_num) (by norm_num) hsome
    rw [hsome]
    simpa using h2

/-- Characterisation of the `getNextObstacle` accumulator loop: a returned
candidate either is the surviving accumulator (and nothing in the list beats
it), or comes from the list, qualifies, beats the incoming accumulator
strictly, beats every earlier qualifying obstacle strictly (first-found-wins
under the strict `<` comparison), and is beaten by no later one. -/
lemma nextObsAux_spec (car : CarState) (config : SimulationConfig) :
    ∀ (l : List Obstacle) (acc : Option (ℚ × Obstacle)) (r : ℚ × Obstacle),
      nextObsAux car config l acc = Option.some r →
      (acc = Option.some r ∧
        ∀ obs ∈ l, qualifies car config obs → r.1 ≤ obs.y - car.y) ∨
      (∃ l1 l2, l = l1 ++ r.2 :: l2 ∧ r.1 = r.2.y - car.y ∧ qualifies car config r.2 ∧
        (∀ a : ℚ × Obstacle, acc = Option.some a → r.1 < a.1) ∧
        (∀ obs ∈ l1, qualifies car config obs → r.1 < obs.y - car.y) ∧
        (∀ obs ∈ l2, qualifies car config obs → r.1 ≤ obs.y - car.y)) := by
  intro l
  induction l with
  | nil =>
    intro acc r h
    exact Or.inl ⟨h, by simp⟩
  | cons obs rest ih =>
    intro acc r h
    by_cases hq : 0 < obs.y - car.y ∧ isObstacleInLane car obs config = true
    · cases acc with
      | none =>
        have hstep : nextObsAux car config (obs :: rest) Option.none =
            nextObsAux car config rest (Option.some (obs.y - car.y, obs)) := by
          simp only [nextObsAux]
          rw [if_pos hq]
        rw [hstep] at h
        rcases ih _ r h with ⟨heq, hrest⟩ | ⟨l1, l2, hsplit, hdist, hqual, hacc, hl1, hl2⟩
        · obtain rfl := Option.some.inj heq
          refine Or.inr ⟨[], rest, by simp, rfl, hq, ?_, by simp, hrest⟩
          intro a ha
          exact absurd ha (by simp)
        · refine Or.inr ⟨obs :: l1, l2, by rw [hsplit]; rfl, hdist, hqual, ?_, ?_, hl2⟩
          · intro a ha
            exact absurd ha (by simp)
          · intro o ho hoq
            rcases List.mem_cons.mp ho with rfl | ho'
            · exact hacc (o.y - car.y, o) rfl
            · exact hl1 o ho' hoq
      | some a =>
        obtain ⟨d, o⟩ := a
        by_cases hlt : obs.y - car.y < d
        · have hstep : nextObsAux car config (obs :: rest) (Option.some (d, o)) =
              nextObsAux car config rest (Option.some (obs.y - car.y, obs)) := by
            simp only [nextObsAux]
            rw [if_pos hq, if_pos hlt]
          rw [hstep] at h
          rcases ih _ r h with ⟨heq, hrest⟩ | ⟨l1, l2, hsplit, hdist, hqual, hacc, hl1, hl2⟩
          · obtain rfl := Option.some.inj heq
            refine Or.inr ⟨[], rest, by simp, rfl, hq, ?_, by simp, hrest⟩
            intro a' ha'
            obtain rfl := Option.some.inj ha'
            exact hlt
          · refine Or.inr ⟨obs :: l1, l2, by rw [hsplit]; rfl, hdist, hqual, ?_, ?_, hl2⟩
            · intro a' ha'
              obtain rfl := Option.some.inj ha'
              exact lt_trans (hacc (obs.y - car.y, obs) rfl) hlt
            · intro p hp hpq
              rcases List.mem_cons.mp hp with rfl | hp'
              · exact hacc (p.y - car.y, p) rfl
              · exact hl1 p hp' hpq
        · have hstep : nextObsAux car config (obs :: rest) (Option.some (d, o)) =
              nextObsAux car config rest (Option.some (d, o)) := by
            simp only [nextObsAux]
            rw [if_pos hq, if_neg hlt]
          rw [hstep] at h
          rcases ih _ r h with ⟨heq, hrest⟩ | ⟨l1, l2, hsplit, hdist, hqual, hacc, hl1, hl2⟩
          · refine Or.inl ⟨heq, ?_⟩
            intro p hp hpq
            rcases List.mem_cons.mp hp with rfl | hp'
            · have : r.1 = d := by
                rw [← Option.some.inj heq]
              rw [this]
              exact not_lt.mp hlt
            · exact hrest p hp' hpq
          · refine Or.inr ⟨obs :: l1, l2, by rw [hsplit]; rfl, hdist, hqual, ?_, ?_, hl2⟩
            · intro a' ha'
              obtain rfl := Option.some.inj ha'
              exact hacc (d, o) rfl
            · intro p hp hpq
              rcases List.mem_cons.mp hp with rfl | hp'
              · exact lt_of_lt_of_le (hacc (d, o) rfl) (not_lt.mp hlt)
              · exact hl1 p hp' hpq
    · have hstep : nextObsAux car config (obs :: rest) acc =
          nextObsAux car config rest acc := by
        simp only [nextObsAux]
        rw [if_neg hq]
      rw [hstep] at h
      rcases ih _ r h with ⟨heq, hrest⟩ | ⟨l1, l2, hsplit, hdist, hqual, hacc, hl1, hl2⟩
      · refine Or.inl ⟨heq, ?_⟩
        intro p hp hpq
        rcases List.mem_cons.mp hp with rfl | hp'
        · exact absurd hpq hq
        · exact hrest p hp' hpq
      · refine Or.inr ⟨obs :: l1, l2, by rw [hsplit]; rfl, hdist, hqual, hacc, ?_, hl2⟩
        intro p hp hpq
        rcases List.mem_cons.mp hp with rfl | hp'
        · exact absurd hpq hq
        · exact hl1 p hp' hpq

/-- Once the accumulator holds a candidate, the loop returns a candidate. -/
lemma nextObsAux_some_of_acc (car : CarState) (config : SimulationConfig) :
    ∀ (l : List Obstacle) (a : ℚ × Obstacle),
      ∃ r, nextObsAux car config l (Option.some a) = Option.some r := by
  intro l
  induction l with
  | nil => intro a; exact ⟨a, rfl⟩
  | cons obs rest ih =>
    intro a
    obtain ⟨d, o⟩ := a
    by_cases hq : 0 < obs.y - car.y ∧ isObstacleInLane car obs config = true
    · by_cases hlt : obs.y - car.y < d
      · obtain ⟨r, hr⟩ := ih (obs.y - car.y, obs)
        refine ⟨r, ?_⟩
        have hstep : nextObsAux car config (obs :: rest) (Option.some (d, o)) =
            nextObsAux car config rest (Option.some (obs.y - car.y, obs)) := by
          simp only [nextObsAux]
          rw [if_pos hq, if_pos hlt]
        rw [hstep, hr]
      · obtain ⟨r, hr⟩ := ih (d, o)
        refine ⟨r, ?_⟩
        have hstep : nextObsAux car config (obs :: rest) (Option.some (d, o)) =
            nextObsAux car config rest (Option.some (d, o)) := by
          simp only [nextObsAux]
          rw [if_pos hq, if_neg hlt]
        rw [hstep, hr]
    · obtain ⟨r, hr⟩ := ih (d, o)
      refine ⟨r, ?_⟩
      have hstep : nextObsAux car config (obs :: rest) (Option.some (d, o)) =
          nextObsAux car config rest (Option.some (d, o)) := by
        simp only [nextObsAux]
        rw [if_neg hq]
      rw [hstep, hr]

/-- From an empty accumulator the loop returns nothing iff nothing in the
list qualifies. -/
lemma nextObsAux_none_iff (car : CarState) (config : SimulationConfig) :
    ∀ (l : List Obstacle),
      nextObsAux car config l Option.none = Option.none ↔
        ∀ obs ∈ l, ¬ qualifies car config obs := by
  intro l
  induction l with
  | nil => simp [nextObsAux]
  | cons obs rest ih =>
    by_cases hq : 0 < obs.y - car.y ∧ isObstacleInLane car obs config = true
    · have hstep : nextObsAux car config (obs :: rest) Option.none =
          nextObsAux car config rest (Option.some (obs.y - car.y, obs)) := by
        simp only [nextObsAux]
        rw [if_pos hq]
      constructor
      · intro h
        obtain ⟨r, hr⟩ := nextObsAux_some_of_acc car config rest (obs.y - car.y, obs)
        rw [hstep, hr] at h
        exact absurd h (by simp)
      · intro h
        exact absurd hq (h obs (List.mem_cons_self obs rest))
    · have hstep : nextObsAux car config (obs :: rest) Option.none =
          nextObsAux car config rest Option.none := by
        simp only [nextObsAux]
        rw [if_neg hq]
      rw [hstep, ih]
      constructor
      · intro h p hp
        rcases List.mem_cons.mp hp with rfl | hp'
        · exact hq
        · exact h p hp'
      · intro h p hp
        exact h p (List.mem_cons_of_mem obs hp)

/-- C5 counterexample: `getNextObstacle` performs no detection-threshold
check.  On a state whose only obstacle is in-lane but 1000 units ahead —
far beyond the default threshold 250, so far that the trigger detector
itself says no — it still returns that obstacle. -/
theorem C5_counterexample :
    getNextObstacle farObstacleState DEFAULT_CONFIG = Option.some (1000, farObstacle) ∧
    ¬((1000 : ℚ) < DEFAULT_CONFIG.detectionThreshold) ∧
    shouldTriggerPatmos farObstacleState DEFAULT_CONFIG = false := by
  refine ⟨?_, by norm_num [DEFAULT_CONFIG], ?_⟩
  · norm_num [getNextObstacle, nextObsAux, farObstacleState, farObstacle, DEFAULT_CONFIG,
      isObstacleInLane, getLaneCenter]
  · norm_num [shouldTriggerPatmos, farObstacleState, DEFAULT_CONFIG, isObstacleInLane,
      getLaneCenter]

/-- C5 amended: `getNextObstacle` returns an obstacle iff one is strictly
ahead and in the car's lane — it applies no detectionThreshold filter (the
threshold is checked only by `shouldTriggerPatmos`).  Among qualifying
obstacles it returns the one of minimum distance, first-found-wins: every
qualifying obstacle strictly earlier in the sequence has strictly greater
distance. -/
theorem C5_next_obstacle_selection :
    (∀ (state : SimulationState) (config : SimulationConfig) (r : ℚ × Obstacle),
      getNextObstacle state config = Option.some r →
      r.2 ∈ state.obstacles ∧
      r.1 = r.2.y - state.car.y ∧
      0 < r.1 ∧
      isObstacleInLane state.car r.2 config = true ∧
      (∀ obs ∈ state.obstacles, qualifies state.car config obs →
        r.1 ≤ obs.y - state.car.y) ∧
      (∃ l1 l2, state.obstacles = l1 ++ r.2 :: l2 ∧
        ∀ obs ∈ l1, qualifies state.car config obs → r.1 < obs.y - state.car.y)) ∧
    (∀ (state : SimulationState) (config : SimulationConfig),
      getNextObstacle state config = Option.none ↔
        ∀ obs ∈ state.obstacles, ¬ qualifies state.car config obs) := by
  constructor
  · intro state config r h
    rcases nextObsAux_spec state.car config state.obstacles Option.none r h with
      ⟨heq, -⟩ | ⟨l1, l2, hsplit, hdist, hqual, -, hl1, hl2⟩
    · exact absurd heq (by simp)
    · have hmem : r.2 ∈ state.obstacles := by
        rw [hsplit]
        exact List.mem_append_right l1 (List.mem_cons_self r.2 l2)
      have hpos : 0 < r.1 := by
        rw [hdist]
        exact hqual.1
      refine ⟨hmem, hdist, hpos, hqual.2, ?_, ⟨l1, l2, hsplit, hl1⟩⟩
      intro p hp hpq
      rw [hsplit] at hp
      rcases List.mem_append.mp hp with hp1 | hp2
      · exact (hl1 p hp1 hpq).le
      · rcases List.mem_cons.mp hp2 with rfl | hp3
        · rw [hdist]
        · exact hl2 p hp3 hpq
  · intro state config
    exact nextObsAux_none_iff state.car config state.obstacles

/-- C5 witness: the selection theorem applied to `farObstacleState`, where
the loop returns the lone far obstacle. -/
theorem C5_witness :
    (1000, farObstacle).2 ∈ farObstacleState.obstacles ∧
    ((1000 : ℚ), farObstacle).1 = farObstacle.y - farObstacleState.car.y ∧
    (0 : ℚ) < (1000, farObstacle).1 ∧
    isObstacleInLane farObstacleState.car (1000, farObstacle).2 DEFAULT_CONFIG = true := by
  have h := (C5_next_obstacle_selection.1 farObstacleState DEFAULT_CONFIG (1000, farObstacle)
    (by norm_num [getNextObstacle, nextObsAux, farObstacleState, farObstacle, DEFAULT_CONFIG,
      isObstacleInLane, getLaneCenter]))
  exact ⟨h.1, h.2.1, h.2.2.1, h.2.2.2.1⟩

/-- A tick never removes indices from the triggered set. -/
lemma trackTick_triggered_mono (config : SimulationConfig) (ts : TrackLoopState) :
    ts.triggered ⊆ (trackTick config ts).1.triggered := by
  unfold trackTick
  split
  · exact Finset.Subset.refl _
  · dsimp only
    split
    · split
      · split
        · exact Finset.subset_insert _ _
        · exact Finset.Subset.refl _
      · exact Finset.Subset.refl _
    · exact Finset.Subset.refl _

/-- A tick dispatches an index only if it was not yet triggered, and it then
records it as triggered. -/
lemma trackTick_dispatch (config : SimulationConfig) (ts ts' : TrackLoopState) (i : ℕ) :
    trackTick config ts = (ts', Option.some i) →
    i ∉ ts.triggered ∧ i ∈ ts'.triggered := by
  unfold trackTick
  split
  · intro h
    exact absurd (congrArg Prod.snd h) (by simp)
  · dsimp only
    split
    · split
      · split
        · rename_i hcond
          intro h
          obtain ⟨h1, h2⟩ := Prod.mk.injEq .. ▸ h
          obtain rfl := Option.some.inj h2
          refine ⟨hcond.2, ?_⟩
          rw [← h1]
          exact Finset.mem_insert_self _ _
        · intro h
          exact absurd (congrArg Prod.snd h) (by simp)
      · intro h
        exact absurd (congrArg Prod.snd h) (by simp)
    · intro h
      exact absurd (congrArg Prod.snd h) (by simp)

/-- Indices already triggered at the start of a run are never dispatched. -/
lemma trackRun_fresh (config : SimulationConfig) :
    ∀ (n : ℕ) (ts : TrackLoopState) (j : ℕ),
      j ∈ (trackRun config ts n).2 → j ∉ ts.triggered := by
  intro n
  induction n with
  | zero => intro ts j h; exact absurd h (by simp [trackRun])
  | succ m ih =>
    intro ts j h
    rw [trackRun] at h
    rcases List.mem_append.mp h with hhead | htail
    · cases hd : (trackTick config ts).2 with
      | none => rw [hd] at hhead; exact absurd hhead (by simp)
      | some i =>
        rw [hd] at hhead
        simp only [Option.toList_some, List.mem_singleton] at hhead
        subst hhead
        have htk : trackTick config ts = ((trackTick config ts).1, Option.some j) := by
          rw [← hd]
        exact (trackTick_dispatch config ts (trackTick config ts).1 j htk).1
    · intro hj
      exact ih (trackTick config ts).1 j htail
        (trackTick_triggered_mono config ts hj)

/-- The dispatch log of a run has no duplicates. -/
lemma trackRun_nodup (config : SimulationConfig) :
    ∀ (n : ℕ) (ts : TrackLoopState), (trackRun config ts n).2.Nodup := by
  intro n
  induction n with
  | zero => intro ts; simp [trackRun]
  | succ m ih =>
    intro ts
    rw [trackRun]
    cases hd : (trackTick config ts).2 with
    | none => simpa using ih (trackTick config ts).1
    | some i =>
      simp only [Option.toList_some, List.singleton_append, List.nodup_cons]
      refine ⟨?_, ih (trackTick config ts).1⟩
      intro hmem
      have hfresh := trackRun_fresh config m (trackTick config ts).1 i hmem
      have htk : trackTick config ts = ((trackTick config ts).1, Option.some i) := by
        rw [← hd]
      exact hfresh (trackTick_dispatch config ts (trackTick config ts).1 i htk).2

/-- C3: over any run of the orchestrator loop, each obstacle index is
dispatched at most once per track, and an index already in the track's
triggered set is never dispatched again, regardless of the simulation
states encountered. -/
theorem C3_at_most_one_dispatch (config : SimulationConfig) (ts : TrackLoopState)
    (n : ℕ) (i : ℕ) :
    (trackRun config ts n).2.count i ≤ 1 ∧
    (i ∈ ts.triggered → i ∉ (trackRun config ts n).2) := by
  constructor
  · exact List.nodup_iff_count_le_one.mp (trackRun_nodup config n ts) i
  · intro hi hmem
    exact trackRun_fresh config n ts i hmem hi

/-- C3 witness: a concrete two-tick run from a terminal state dispatches
nothing, and index 0 of the triggered set never reappears. -/
theorem C3_witness :
    (trackRun DEFAULT_CONFIG { sim := collidedState, triggered := {0} } 2).2.count 0 ≤ 1 ∧
    0 ∉ (trackRun DEFAULT_CONFIG { sim := collidedState, triggered := {0} } 2).2 :=
  ⟨(C3_at_most_one_dispatch DEFAULT_CONFIG { sim := collidedState, triggered := {0} } 2 0).1,
    (C3_at_most_one_dispatch DEFAULT_CONFIG { sim := collidedState, triggered := {0} } 2 0).2
      (by decide)⟩

end VSim
